import Mathlib

/-!
Verification of the Nova Physics simulation core.

Shallow embedding of the newer (`nvSpace` / `nvRigidBody`) incarnation of the
Nova Physics engine: `space.c`, `narrowphase.c`, `shape.c`, `broadphase.c` and
the headers `constants.h`, `space.h`, `space_settings.h`.

Modelling conventions:

* `nv_float` (C floating point) is modelled exactly by the rationals `ℚ`;
  every arithmetic comparison of the source is represented exactly.
* The platform math library (`math.h`: `sqrt`, `cos`, `sin`, `pow`) is not
  part of the repository sources, so every definition that needs it is
  parameterized over a record `NvMathFns` of those functions.
* C routines whose defining translation units are not among the sources
  (`collision.c`, `contact.c`, `body.c`, the constraint and contact solvers)
  are either modelled from the specification (each such definition carries a
  doc comment starting with `Modelled from the spec:`) or passed in as
  explicit function parameters, so the theorems hold for every behaviour of
  the missing code.
* C heap mutation becomes explicit state passing; the pointer identity of a
  space is modelled by a `label` field, and pointer keys of the contact hash
  map by the shape ids.
-/

/-- Scalar type of the engine (`nv_float`); modelled exactly by `ℚ`. -/
abbrev nv_float := ℚ

/-- Functions supplied by the platform math library (`math.h` is not part of
the repository sources); the embedding is parameterized over them. -/
structure NvMathFns where
  sqrt : nv_float → nv_float
  cos : nv_float → nv_float
  sin : nv_float → nv_float
  pow : nv_float → nv_float → nv_float

/-- The 2D vector type `nvVector2`. -/
structure nvVector2 where
  x : nv_float
  y : nv_float
  deriving DecidableEq

/-- Zero vector (`nvVector2_zero`). -/
def nvVector2_zero : nvVector2 := ⟨0, 0⟩

/-- Component-wise addition (`nvVector2_add`). -/
def nvVector2_add (a b : nvVector2) : nvVector2 := ⟨a.x + b.x, a.y + b.y⟩

/-- Component-wise subtraction (`nvVector2_sub`). -/
def nvVector2_sub (a b : nvVector2) : nvVector2 := ⟨a.x - b.x, a.y - b.y⟩

/-- Scalar multiplication (`nvVector2_muls`). -/
def nvVector2_muls (v : nvVector2) (s : nv_float) : nvVector2 := ⟨v.x * s, v.y * s⟩

/-- Squared length (`nvVector2_len2`). -/
def nvVector2_len2 (v : nvVector2) : nv_float := v.x * v.x + v.y * v.y

/-- Modelled from the spec: rotation of a vector by an angle (`nvVector2_rotate`,
math.h is not among the sources): `rotate(v, θ) = (cos θ · x − sin θ · y,
sin θ · x + cos θ · y)`. -/
def nvVector2_rotate (m : NvMathFns) (v : nvVector2) (a : nv_float) : nvVector2 :=
  ⟨m.cos a * v.x - m.sin a * v.y, m.sin a * v.x + m.cos a * v.y⟩

/-- Modelled from the spec: right perpendicular (`nvVector2_perpr`, math.h is
not among the sources): `perp_right(v) = (y, −x)`. -/
def nvVector2_perpr (v : nvVector2) : nvVector2 := ⟨v.y, -v.x⟩

/-- Modelled from the spec: normalization to a unit vector (`nvVector2_normalize`,
math.h is not among the sources): `v / |v|` with `|v| = sqrt(len2 v)`. -/
def nvVector2_normalize (m : NvMathFns) (v : nvVector2) : nvVector2 :=
  nvVector2_muls v (1 / m.sqrt (nvVector2_len2 v))

/-- Axis-aligned bounding box (`nvAABB`). -/
structure nvAABB where
  min_x : nv_float
  min_y : nv_float
  max_x : nv_float
  max_y : nv_float
  deriving DecidableEq

/-- A transform: position plus angle (`nvTransform`). -/
structure nvTransform where
  position : nvVector2
  angle : nv_float
  deriving DecidableEq

/-- Modelled from the spec: AABB-AABB overlap (`nv_collide_aabb_x_aabb`,
collision.c is not among the sources) is the standard interval test. -/
def nv_collide_aabb_x_aabb (a b : nvAABB) : Bool :=
  decide (a.min_x ≤ b.max_x) && decide (b.min_x ≤ a.max_x) &&
  decide (a.min_y ≤ b.max_y) && decide (b.min_y ≤ a.max_y)

/-- Modelled from the spec: AABB-point containment (`nv_collide_aabb_x_point`,
collision.c is not among the sources): the point lies inside the interval on
both axes. -/
def nv_collide_aabb_x_point (aabb : nvAABB) (p : nvVector2) : Bool :=
  decide (aabb.min_x ≤ p.x) && decide (p.x ≤ aabb.max_x) &&
  decide (aabb.min_y ≤ p.y) && decide (p.y ≤ aabb.max_y)

/-- Shape type tag (`nvShapeType`). -/
inductive nvShapeType where
  | CIRCLE
  | POLYGON
  deriving DecidableEq

/-- Circle payload (`nvCircle`). -/
structure nvCircle where
  center : nvVector2
  radius : nv_float
  deriving DecidableEq

/-- Polygon payload (`nvPolygon`): the fixed-capacity C arrays of length
`num_vertices` are modelled by lists of that length. -/
structure nvPolygon where
  num_vertices : Nat
  vertices : List nvVector2
  xvertices : List nvVector2
  normals : List nvVector2
  deriving DecidableEq

/-- Collision shape (`nvShape`). The C `union` of the two payloads is modelled
by carrying both; only the payload selected by `type` is ever meaningful. -/
structure nvShape where
  id : Nat
  type : nvShapeType
  circle : nvCircle
  polygon : nvPolygon
  deriving DecidableEq

/-- Inert circle payload, standing for the uninitialized union member. -/
def nvCircle_unset : nvCircle := ⟨nvVector2_zero, 0⟩

/-- Inert polygon payload, standing for the uninitialized union member. -/
def nvPolygon_unset : nvPolygon := ⟨0, [], [], []⟩

/-- `NV_POLYGON_MAX_VERTICES` from constants.h. -/
def NV_POLYGON_MAX_VERTICES : Nat := 16

/-- `nvCircleShape_new` from shape.c. The process-global `id_counter` of
shape.c is threaded through explicitly: the constructor takes the current
counter and returns the new shape together with the advanced counter.
Allocation (`NV_NEW` / `NV_MEM_CHECK`) is assumed to succeed. -/
def nvCircleShape_new (center : nvVector2) (radius : nv_float) (id_counter : Nat) :
    nvShape × Nat :=
  ({ id := id_counter, type := nvShapeType.CIRCLE,
     circle := { center := center, radius := radius },
     polygon := nvPolygon_unset },
   id_counter + 1)

/-- `nvPolygonShape_new` from shape.c. As in the source, `shape->id =
id_counter++` happens before the vertex-count validity checks, so a rejected
polygon still advances the counter. The face normals follow the source:
`normals[i] = normalize(perp_right(v[(i+1)%n] − v[i]))` on the offset
vertices. Allocation is assumed to succeed; the `nv_set_error` calls of the
failure paths are modelled by the `none` result. -/
def nvPolygonShape_new (m : NvMathFns) (vertices : List nvVector2)
    (offset : nvVector2) (id_counter : Nat) : Option nvShape × Nat :=
  let sid := id_counter
  let ctr := id_counter + 1
  if NV_POLYGON_MAX_VERTICES < vertices.length then (none, ctr)
  else if vertices.length < 3 then (none, ctr)
  else
    let vs := vertices.map (fun v => nvVector2_add v offset)
    let xs := vertices.map (fun _ => nvVector2_zero)
    let normals := (List.range vs.length).map (fun i =>
      let va := vs.getD i nvVector2_zero
      let vb := vs.getD ((i + 1) % vs.length) nvVector2_zero
      nvVector2_normalize m (nvVector2_perpr (nvVector2_sub vb va)))
    (some { id := sid, type := nvShapeType.POLYGON, circle := nvCircle_unset,
            polygon := { num_vertices := vertices.length, vertices := vs,
                         xvertices := xs, normals := normals } },
     ctr)

/-- `nvPolygon_transform` from shape.c: writes the world-space vertex cache
`xvertices = xform.position + rotate(v, xform.angle)`. -/
def nvPolygon_transform (m : NvMathFns) (shape : nvShape) (xform : nvTransform) :
    nvShape :=
  { shape with polygon :=
      { shape.polygon with xvertices := shape.polygon.vertices.map (fun v =>
          nvVector2_add xform.position (nvVector2_rotate m v xform.angle)) } }

/-- Fold of the polygon AABB accumulation loop of `nvShape_get_aabb`. -/
def nvShape_aabb_fold (start : nvVector2) (vs : List nvVector2) : nvAABB :=
  vs.foldl (fun acc v =>
      { min_x := min acc.min_x v.x, min_y := min acc.min_y v.y,
        max_x := max acc.max_x v.x, max_y := max acc.max_y v.y })
    ⟨start.x, start.y, start.x, start.y⟩

/-- `nvShape_get_aabb` from shape.c. For the polygon case the C loop starts
from `±NV_INF`; for the nonempty vertex lists produced by the constructor this
equals folding min/max from the first transformed vertex, which is how it is
written here (`ℚ` has no infinities; an empty polygon, unreachable through the
constructor, gets the zero box, which is also the `default:` case result of the
source). The source additionally caches `xvertices` in the shape; the cache
write is dropped since the embedding recomputes it. -/
def nvShape_get_aabb (m : NvMathFns) (shape : nvShape) (xform : nvTransform) :
    nvAABB :=
  match shape.type with
  | nvShapeType.CIRCLE =>
      { min_x := xform.position.x - shape.circle.radius,
        min_y := xform.position.y - shape.circle.radius,
        max_x := xform.position.x + shape.circle.radius,
        max_y := xform.position.y + shape.circle.radius }
  | nvShapeType.POLYGON =>
      match (nvPolygon_transform m shape xform).polygon.xvertices with
      | [] => ⟨0, 0, 0, 0⟩
      | v :: vs => nvShape_aabb_fold v vs

/-- Rigid body type (`nvRigidBodyType`). -/
inductive nvRigidBodyType where
  | STATIC
  | DYNAMIC
  deriving DecidableEq

/-- Rigid body (`nvRigidBody`, declared in body.h; body.c is not among the
sources, so only the fields used by the embedded translation units appear).
The `space` back-pointer is modelled by the owning space's `label`. -/
structure nvRigidBody where
  id : Nat
  type : nvRigidBodyType
  position : nvVector2
  angle : nv_float
  origin : nvVector2
  com : nvVector2
  linear_velocity : nvVector2
  angular_velocity : nv_float
  force : nvVector2
  torque : nv_float
  invmass : nv_float
  invinertia : nv_float
  gravity_scale : nv_float
  linear_damping_scale : nv_float
  angular_damping_scale : nv_float
  collision_enabled : Bool
  collision_group : Nat
  collision_category : Nat
  collision_mask : Nat
  shapes : List nvShape
  inSpace : Option Nat
  cache_aabb : Bool
  cache_transform : Bool
  deriving DecidableEq

/-- Modelled from the spec: `nvRigidBody_integrate_accelerations` (body.c is
not among the sources). For a static body this is a no-op; otherwise
`linear_velocity += (invmass · force + gravity · gravity_scale) · dt`,
`angular_velocity += invinertia · torque · dt`, damping multiplies the
velocities by `pow(1 − damping, dt · damping_scale)`, and the force and torque
accumulators are cleared. -/
def nvRigidBody_integrate_accelerations (m : NvMathFns)
    (linear_damping angular_damping : nv_float) (body : nvRigidBody)
    (gravity : nvVector2) (dt : nv_float) : nvRigidBody :=
  if body.type = nvRigidBodyType.STATIC then body
  else
    let lv := nvVector2_add body.linear_velocity
      (nvVector2_muls
        (nvVector2_add (nvVector2_muls body.force body.invmass)
          (nvVector2_muls gravity body.gravity_scale)) dt)
    let av := body.angular_velocity + body.invinertia * body.torque * dt
    let lv := nvVector2_muls lv (m.pow (1 - linear_damping) (dt * body.linear_damping_scale))
    let av := av * m.pow (1 - angular_damping) (dt * body.angular_damping_scale)
    { body with linear_velocity := lv, angular_velocity := av,
                force := nvVector2_zero, torque := 0 }

/-- Modelled from the spec: `nvRigidBody_integrate_velocities` (body.c is not
among the sources). For a static body this is a no-op; otherwise
`position += linear_velocity · dt` and `angle += angular_velocity · dt`.
The `origin` update is performed by the caller (`nvSpace_step`), exactly as in
space.c. -/
def nvRigidBody_integrate_velocities (body : nvRigidBody) (dt : nv_float) :
    nvRigidBody :=
  if body.type = nvRigidBodyType.STATIC then body
  else
    { body with
        position := nvVector2_add body.position (nvVector2_muls body.linear_velocity dt),
        angle := body.angle + body.angular_velocity * dt }

/-- Contact position correction method (`nvContactPositionCorrection`). -/
inductive nvContactPositionCorrection where
  | BAUMGARTE
  | NGS
  deriving DecidableEq

/-- Coefficient mixing function (`nvCoefficientMix`). -/
inductive nvCoefficientMix where
  | AVG
  | MUL
  | SQRT
  | MIN
  | MAX
  deriving DecidableEq

/-- Space simulation settings (`nvSpaceSettings` from space_settings.h). -/
structure nvSpaceSettings where
  baumgarte : nv_float
  penetration_slop : nv_float
  contact_position_correction : nvContactPositionCorrection
  velocity_iterations : Nat
  position_iterations : Nat
  substeps : Nat
  linear_damping : nv_float
  angular_damping : nv_float
  warmstarting : Bool
  restitution_mix : nvCoefficientMix
  friction_mix : nvCoefficientMix
  deriving DecidableEq

/-- Accumulated solver quantities of one contact (`nvContactSolverInfo`). -/
structure nvContactSolverInfo where
  normal_impulse : nv_float
  tangent_impulse : nv_float
  mass_normal : nv_float
  mass_tangent : nv_float
  velocity_bias : nv_float
  deriving DecidableEq

/-- One contact point of a manifold (`nvContact`). -/
structure nvContact where
  anchor_a : nvVector2
  anchor_b : nvVector2
  separation : nv_float
  id : Nat
  is_persisted : Bool
  remove_invoked : Bool
  solver_info : nvContactSolverInfo
  deriving DecidableEq

/-- All-zero solver info. -/
def nvContactSolverInfo_zero : nvContactSolverInfo := ⟨0, 0, 0, 0, 0⟩

/-- Default contact value, used only as the out-of-range result of `List.getD`
in theorem statements. -/
def nvContact_default : nvContact :=
  ⟨nvVector2_zero, nvVector2_zero, 0, 0, false, false, nvContactSolverInfo_zero⟩

/-- A persistent contact pair (`nvPersistentContactPair`). The shape and body
pointers are modelled by the shape and body ids; the `contacts[2]` array of
`contact_count` valid entries is modelled by a list of that length. -/
structure nvPersistentContactPair where
  shape_a : Nat
  shape_b : Nat
  body_a : Nat
  body_b : Nat
  normal : nvVector2
  friction : nv_float
  restitution : nv_float
  contacts : List nvContact
  deriving DecidableEq

/-- Modelled from the spec: `nvPersistentContactPair_penetrating` (contact.c is
not among the sources): a persistent contact pair is penetrating when any of
its contacts has `separation < 0`. -/
def nvPersistentContactPair_penetrating (pcp : nvPersistentContactPair) : Bool :=
  pcp.contacts.any (fun c => decide (c.separation < 0))

/-- The space's contacts hash map, modelled as an association list. -/
abbrev nvContactMap := List nvPersistentContactPair

/-- Lookup in the contacts map (`nvHashMap_get` keyed on the shape pair; the
key compare of contact.c is not among the sources and is modelled from the
spec as equality of the `(shape_a.id, shape_b.id)` pair, which is the form in
which the translation units present here always query it). -/
def nvContactMap_get (cmap : nvContactMap) (ka kb : Nat) :
    Option nvPersistentContactPair :=
  cmap.find? (fun p => p.shape_a == ka && p.shape_b == kb)

/-- Insertion/replacement in the contacts map (`nvHashMap_set`): replace the
entries carrying the same key, append when the key is absent. -/
def nvContactMap_set (cmap : nvContactMap) (pcp : nvPersistentContactPair) :
    nvContactMap :=
  if (nvContactMap_get cmap pcp.shape_a pcp.shape_b).isSome then
    cmap.map (fun q =>
      if q.shape_a == pcp.shape_a && q.shape_b == pcp.shape_b then pcp else q)
  else cmap ++ [pcp]

/-- Removal from the contacts map (`nvHashMap_remove`). -/
def nvContactMap_remove (cmap : nvContactMap) (ka kb : Nat) : nvContactMap :=
  cmap.filter (fun p => !(p.shape_a == ka && p.shape_b == kb))

/-- The collision routines of collision.c, which is not among the sources; the
embedding is parameterized over them. narrowphase.c calls exactly one of them
(`nv_collide_polygon_x_polygon`) for every shape pair. -/
structure nvCollisionFns where
  collide_polygon_x_polygon :
    nvShape → nvTransform → nvShape → nvTransform → nvPersistentContactPair
  collide_circle_x_circle :
    nvShape → nvTransform → nvShape → nvTransform → nvPersistentContactPair

/-- One step of the feature-id matching loop of `nv_narrow_phase` (the inner
`for (old_c ...)` loop body): when the old contact's id equals the new
contact's id, mark it persisted and, when warm-starting is enabled, copy the
stored solver info. -/
def nv_narrow_phase_matchStep (warmstarting : Bool) (c oldc : nvContact) :
    nvContact :=
  if oldc.id == c.id then
    { c with is_persisted := true,
             solver_info := if warmstarting then oldc.solver_info else c.solver_info }
  else c

/-- The body of the innermost shape-pair loop of `nv_narrow_phase` from
narrowphase.c: look the pair up in the contacts map; if present, recompute the
manifold, subtract the rotated centers of mass from the anchors, match
contacts by feature id and replace the stored pair; if absent, recompute the
manifold and register it only when it is actually penetrating. As in the
source, the manifold is always computed by `collide_polygon_x_polygon`,
whatever the shape types are. -/
def nv_narrow_phase_pair (m : NvMathFns) (settings : nvSpaceSettings)
    (fns : nvCollisionFns) (cmap : nvContactMap) (body_a body_b : nvRigidBody)
    (shape_a shape_b : nvShape) : nvContactMap :=
  let com_a := nvVector2_rotate m body_a.com body_a.angle
  let com_b := nvVector2_rotate m body_b.com body_b.angle
  match nvContactMap_get cmap shape_a.id shape_b.id with
  | some old_pcp =>
      let pcp0 := fns.collide_polygon_x_polygon shape_a ⟨body_a.origin, body_a.angle⟩
        shape_b ⟨body_b.origin, body_b.angle⟩
      let pcp1 := { pcp0 with body_a := body_a.id, body_b := body_b.id,
                              shape_a := shape_a.id, shape_b := shape_b.id }
      let newContacts := pcp1.contacts.map (fun c0 =>
        let c1 := { c0 with anchor_a := nvVector2_sub c0.anchor_a com_a,
                            anchor_b := nvVector2_sub c0.anchor_b com_b }
        old_pcp.contacts.foldl (nv_narrow_phase_matchStep settings.warmstarting) c1)
      nvContactMap_set cmap { pcp1 with contacts := newContacts }
  | none =>
      let pcp0 := fns.collide_polygon_x_polygon shape_a ⟨body_a.origin, body_a.angle⟩
        shape_b ⟨body_b.origin, body_b.angle⟩
      let pcp1 := { pcp0 with body_a := body_a.id, body_b := body_b.id,
                              shape_a := shape_a.id, shape_b := shape_b.id }
      if nvPersistentContactPair_penetrating pcp1 then
        let newContacts := pcp1.contacts.map (fun c0 =>
          { c0 with anchor_a := nvVector2_sub c0.anchor_a com_a,
                    anchor_b := nvVector2_sub c0.anchor_b com_b })
        nvContactMap_set cmap { pcp1 with contacts := newContacts }
      else cmap

/-- `nv_narrow_phase` from narrowphase.c: for every broad-phase pair and every
shape pair of the two bodies, run the shape-pair update on the contacts map. -/
def nv_narrow_phase (m : NvMathFns) (settings : nvSpaceSettings)
    (fns : nvCollisionFns) (pairs : List (nvRigidBody × nvRigidBody))
    (cmap : nvContactMap) : nvContactMap :=
  pairs.foldl (fun cm ab =>
    ab.1.shapes.foldl (fun cm sa =>
      ab.2.shapes.foldl (fun cm sb =>
        nv_narrow_phase_pair m settings fns cm ab.1 ab.2 sa sb) cm) cm) cmap

/-- `nvBroadPhase_early_out` from broadphase.c (the newer incarnation): skip
the pair when the ids are not strictly increasing, either body has collision
detection disabled, both bodies are static, both share the same nonzero
collision group, or one collision mask does not intersect the other body's
category. The unused `space` parameter of the C signature is dropped. -/
def nvBroadPhase_early_out (a b : nvRigidBody) : Bool :=
  if b.id ≤ a.id then true
  else if !a.collision_enabled || !b.collision_enabled then true
  else if a.type = nvRigidBodyType.STATIC && b.type = nvRigidBodyType.STATIC then true
  else if a.collision_group == b.collision_group && a.collision_group != 0 then true
  else if Nat.land a.collision_mask b.collision_category == 0 ||
          Nat.land b.collision_mask a.collision_category == 0 then true
  else false

/-- The `one_aabb` computation of `nv_broadphase_brute_force`: the body AABBs
overlap and at least one shape-pair AABB overlap exists. -/
def nv_broadphase_one_aabb (m : NvMathFns) (a b : nvRigidBody)
    (abox bbox : nvAABB) : Bool :=
  nv_collide_aabb_x_aabb abox bbox &&
    a.shapes.any (fun sa => b.shapes.any (fun sb =>
      nv_collide_aabb_x_aabb (nvShape_get_aabb m sa ⟨a.origin, a.angle⟩)
        (nvShape_get_aabb m sb ⟨b.origin, b.angle⟩)))

/-- The contact-destruction branch of `nv_broadphase_brute_force`: for every
shape pair of the two bodies erase the stored persistent contact pair. The
`on_contact_removed` listener callback and the `remove_invoked` flag write of
the source only affect the entry being erased and the external listener, so
their net effect on the space state is the removal itself. -/
def nv_broadphase_removePairContacts (a b : nvRigidBody) (cmap : nvContactMap) :
    nvContactMap :=
  a.shapes.foldl (fun cm sa =>
    b.shapes.foldl (fun cm sb => nvContactMap_remove cm sa.id sb.id) cm) cmap

/-- Result of a broad-phase run: the candidate pairs and the updated contacts
map. -/
structure nvBroadPhaseResult where
  pairs : List (nvRigidBody × nvRigidBody)
  contacts : nvContactMap
  deriving DecidableEq

/-- Body of the inner (`j`) loop of `nv_broadphase_brute_force`: early-out the
pair, otherwise either record the candidate pair (at least one shape-pair AABB
overlap) or destroy any stored contacts of the two bodies' shape pairs. -/
def nv_broadphase_brute_force_inner (m : NvMathFns)
    (body_get_aabb : nvRigidBody → nvAABB) (a : nvRigidBody) (abox : nvAABB)
    (acc : nvBroadPhaseResult) (b : nvRigidBody) : nvBroadPhaseResult :=
  if nvBroadPhase_early_out a b then acc
  else
    let bbox := body_get_aabb b
    if nv_broadphase_one_aabb m a b abox bbox then
      { acc with pairs := acc.pairs ++ [(a, b)] }
    else
      { acc with contacts := nv_broadphase_removePairContacts a b acc.contacts }

/-- `nv_broadphase_brute_force` from broadphase.c. `nvRigidBody_get_aabb` lives
in body.c, which is not among the sources, so the body-level AABB is a
parameter. The pairs array is cleared on entry, as in the source. -/
def nv_broadphase_brute_force (m : NvMathFns)
    (body_get_aabb : nvRigidBody → nvAABB) (bodies : List nvRigidBody)
    (cmap : nvContactMap) : nvBroadPhaseResult :=
  bodies.foldl (fun acc a =>
    bodies.foldl (nv_broadphase_brute_force_inner m body_get_aabb a (body_get_aabb a))
      acc)
    { pairs := [], contacts := cmap }

/-- A non-contact constraint as seen by space.c: the constraints array only
stores pointers whose internals live in translation units that are not among
the sources, so a constraint is modelled by its two (optional) attached body
ids plus an opaque payload evolved by the external solver functions. -/
structure nvConstraintRef where
  a : Option Nat
  b : Option Nat
  payload : List nv_float
  deriving DecidableEq

/-- The space (`nvSpace` from space.h), restricted to the members the embedded
translation units touch. The pointer identity of the space (used by the
`body->space == space` check) is modelled by `label`. -/
structure nvSpace where
  label : Nat
  bodies : List nvRigidBody
  constraints : List nvConstraintRef
  contacts : nvContactMap
  broadphase_pairs : List (nvRigidBody × nvRigidBody)
  gravity : nvVector2
  settings : nvSpaceSettings
  kill_bounds : nvAABB
  use_kill_bounds : Bool
  id_counter : Nat
  deriving DecidableEq

/-- `nvSpace_add_body` from space.c. Returns the C status code together with
the updated space: status 2 (the `AlreadyAdded` error, after `nv_set_error`)
when the body's space pointer already equals this space, leaving the space
untouched; otherwise append the body, set its space pointer and assign
`body->id = space->id_counter++`. The allocation-failure path (status 1) is
not modelled: `nvArray_add` is assumed to succeed. -/
def nvSpace_add_body (space : nvSpace) (body : nvRigidBody) : Nat × nvSpace :=
  if body.inSpace = some space.label then (2, space)
  else
    (0, { space with
          bodies := space.bodies ++
            [{ body with inSpace := some space.label, id := space.id_counter }],
          id_counter := space.id_counter + 1 })

/-- The ids a space hands out over a sequence of `nvSpace_add_body` calls (the
ids assigned on the successful calls, in call order). -/
def nvSpace_addAssignedIds (space : nvSpace) : List nvRigidBody → List Nat
  | [] => []
  | b :: bs =>
    let r := nvSpace_add_body space b
    if r.1 = 0 then space.id_counter :: nvSpace_addAssignedIds r.2 bs
    else nvSpace_addAssignedIds r.2 bs

/-- The routines invoked by `nvSpace_step` whose translation units are not
among the sources: the body-level AABB (body.c), the collision routines
(collision.c), and the constraint and contact solver callbacks (constraint
and contact-solver translation units). Each solver callback acts on the state
the corresponding C call can reach: its own record and, for the warm-start
and solve calls, the bodies it applies impulses to. -/
structure nvStepExternals where
  body_get_aabb : nvRigidBody → nvAABB
  collision : nvCollisionFns
  constraint_presolve :
    List nvRigidBody → nvConstraintRef → nv_float → nv_float → nvConstraintRef
  constraint_warmstart : nvConstraintRef → List nvRigidBody → List nvRigidBody
  constraint_solve :
    nvConstraintRef → nv_float → List nvRigidBody → nvConstraintRef × List nvRigidBody
  contact_presolve :
    List nvRigidBody → nvPersistentContactPair → nv_float → nvPersistentContactPair
  contact_warmstart : nvPersistentContactPair → List nvRigidBody → List nvRigidBody
  contact_solve_velocity :
    nvPersistentContactPair → List nvRigidBody → nvPersistentContactPair × List nvRigidBody

/-- One pass of the inner constraint-solve loop of `nvSpace_step` (`for j over
space->constraints: nvConstraint_solve`): each constraint is solved once, in
order, threading the bodies. -/
def nvSpace_solveConstraintsOnce (ext : nvStepExternals) (inv_dt : nv_float)
    (st : List nvConstraintRef × List nvRigidBody) :
    List nvConstraintRef × List nvRigidBody :=
  st.1.foldl (fun acc c =>
    let r := ext.constraint_solve c inv_dt acc.2
    (acc.1 ++ [r.1], r.2)) ([], st.2)

/-- One pass of the inner contact-solve loop of `nvSpace_step` (iterate the
contacts map, `nv_contact_solve_velocity` on each persistent contact pair). -/
def nvSpace_solveContactsOnce (ext : nvStepExternals)
    (st : nvContactMap × List nvRigidBody) : nvContactMap × List nvRigidBody :=
  st.1.foldl (fun acc pcp =>
    let r := ext.contact_solve_velocity pcp acc.2
    (acc.1 ++ [r.1], r.2)) ([], st.2)

/-- One substep of `nvSpace_step` from space.c, phase by phase: integrate
accelerations (resetting the caches of non-static bodies first); brute-force
broad-phase (the `SHG` and `BVH` switch cases are empty in the source);
narrow-phase; constraint presolve, warm-start and iterative solve; contact
presolve, warm-start and iterative velocity solve; integrate velocities and
update each body's origin. The kill-bounds removal in the velocity-integration
loop is commented out in the source, so no body is ever removed here. -/
def nvSpace_step_substep (m : NvMathFns) (ext : nvStepExternals)
    (dt inv_dt : nv_float) (space : nvSpace) : nvSpace :=
  let bodies1 := space.bodies.map (fun body =>
    let body := if body.type ≠ nvRigidBodyType.STATIC then
        { body with cache_aabb := false, cache_transform := false }
      else body
    nvRigidBody_integrate_accelerations m space.settings.linear_damping
      space.settings.angular_damping body space.gravity dt)
  let bp := nv_broadphase_brute_force m ext.body_get_aabb bodies1 space.contacts
  let contacts1 := nv_narrow_phase m space.settings ext.collision bp.pairs bp.contacts
  let constraints1 := space.constraints.map (fun c =>
    ext.constraint_presolve bodies1 c dt inv_dt)
  let bodies2 := constraints1.foldl (fun bs c => ext.constraint_warmstart c bs) bodies1
  let solved := (List.range space.settings.velocity_iterations).foldl
    (fun st _ => nvSpace_solveConstraintsOnce ext inv_dt st) (constraints1, bodies2)
  let contacts2 := contacts1.map (fun pcp => ext.contact_presolve solved.2 pcp inv_dt)
  let bodies3 := contacts2.foldl (fun bs pcp => ext.contact_warmstart pcp bs) solved.2
  let csolved := (List.range space.settings.velocity_iterations).foldl
    (fun st _ => nvSpace_solveContactsOnce ext st) (contacts2, bodies3)
  let bodies4 := csolved.2.map (fun body =>
    let body := nvRigidBody_integrate_velocities body dt
    { body with origin :=
        nvVector2_sub body.position (nvVector2_rotate m body.com body.angle) })
  { space with bodies := bodies4, constraints := solved.1, contacts := csolved.1,
               broadphase_pairs := bp.pairs }

/-- `nvSpace_step` from space.c: return immediately when `dt == 0.0` or
`settings.substeps <= 0` (substeps is unsigned, so that is `substeps = 0`);
otherwise divide `dt` by the substep count and run the substep pipeline that
many times. -/
def nvSpace_step (m : NvMathFns) (ext : nvStepExternals) (space : nvSpace)
    (dt : nv_float) : nvSpace :=
  if dt = 0 ∨ space.settings.substeps = 0 then space
  else
    let substeps := space.settings.substeps
    let h := dt / (substeps : nv_float)
    let inv_h := 1 / h
    (List.range substeps).foldl (fun s _ => nvSpace_step_substep m ext h inv_h s) space

/-- One solver invocation issued by the velocity-solve section of
`nvSpace_step`: solving one non-contact constraint or one persistent contact
pair (identified by its position in the respective collection). -/
inductive nvSolveEvent where
  | constraint (i : Nat)
  | contact (i : Nat)
  deriving DecidableEq

/-- Whether a solve event is a non-contact constraint solve. -/
def nvSolveEvent.isConstraintEv : nvSolveEvent → Bool
  | nvSolveEvent.constraint _ => true
  | nvSolveEvent.contact _ => false

/-- The sequence of solver invocations issued by the velocity-solve section of
`nvSpace_step` (space.c lines 427-468), for a substep with the given
iteration count and collections of constraints and contacts: first the loop
`for i < velocity_iters: for each constraint: solve`, run to completion, and
then the loop `for i < velocity_iters: for each contact: solve`. -/
def nvSpace_step_velocitySolveTrace (velocity_iterations : Nat)
    (constraints contacts : List Nat) : List nvSolveEvent :=
  ((List.range velocity_iterations).flatMap
      (fun _ => constraints.map nvSolveEvent.constraint))
    ++ ((List.range velocity_iterations).flatMap
      (fun _ => contacts.map nvSolveEvent.contact))

/-- The velocity-solve schedule as the specification sentence states it
(written from the spec's words, for comparison with the source's schedule):
one outer loop of `velocity_iterations` iterations, and inside each outer
iteration every non-contact constraint solved once and then every contact
solved once. -/
def spec_velocitySolveTrace (velocity_iterations : Nat)
    (constraints contacts : List Nat) : List nvSolveEvent :=
  (List.range velocity_iterations).flatMap (fun _ =>
    constraints.map nvSolveEvent.constraint ++ contacts.map nvSolveEvent.contact)

/-- Body of the older (`nv_Body`) incarnation, restricted to the fields read
by `nv_contact_circle_x_circle` from contact.c (which is among the sources). -/
structure nvOldBody where
  position : nvVector2
  radius : nv_float
  deriving DecidableEq

/-- Collision resolution of the older incarnation, restricted to the fields
touched by `nv_contact_circle_x_circle`. -/
structure nvOldResolution where
  a : nvOldBody
  b : nvOldBody
  contact_count : Nat
  contacts : List nvVector2
  deriving DecidableEq

/-- `nv_contact_circle_x_circle` from the older incarnation's contact.c:
direction from A's position to B's position, replaced by the upward vector
`(0, 1)` when the two positions coincide, then normalized; the single contact
point is `a.position + dir · a.radius`. -/
def nv_contact_circle_x_circle (m : NvMathFns) (res : nvOldResolution) :
    nvOldResolution :=
  let dir0 := nvVector2_sub res.b.position res.a.position
  let dir1 := if nvVector2_len2 dir0 = 0 then (⟨0, 1⟩ : nvVector2) else dir0
  let dir := nvVector2_normalize m dir1
  let cp := nvVector2_add res.a.position (nvVector2_muls dir res.a.radius)
  { res with contact_count := 1, contacts := [cp] }

/-- The constructor `nvSolveEvent.constraint` is injective. -/
theorem nvSolveEvent_constraint_injective :
    Function.Injective nvSolveEvent.constraint := by
  intro a b h
  injection h

/-- The constructor `nvSolveEvent.contact` is injective. -/
theorem nvSolveEvent_contact_injective :
    Function.Injective nvSolveEvent.contact := by
  intro a b h
  injection h

/-- Repeating a fixed block `v` times multiplies every occurrence count by `v`. -/
theorem count_flatMap_const (v : Nat) (L : List nvSolveEvent) (x : nvSolveEvent) :
    ((List.range v).flatMap (fun _ => L)).count x = v * L.count x := by
  induction v with
  | zero => simp
  | succ n ih =>
    rw [List.range_succ, List.flatMap_append, List.count_append, ih]
    simp [Nat.succ_mul]

/-- C1 (amended): in every substep of `step(dt)`, the velocity solve of
space.c is two back-to-back outer loops, not one interleaved outer loop: first
`velocity_iterations` iterations each solving every non-contact constraint
once, run to completion, and only then `velocity_iterations` iterations each
solving every persistent contact pair once. In the trace of issued solver
invocations every constraint solve precedes every contact solve, and each
constraint and each contact is solved `velocity_iterations` times in total. -/
theorem C1_velocity_solve_schedule (v : Nat) (cs ks : List Nat) :
    ((nvSpace_step_velocitySolveTrace v cs ks).filter nvSolveEvent.isConstraintEv)
        ++ ((nvSpace_step_velocitySolveTrace v cs ks).filter
          (fun e => !e.isConstraintEv))
      = nvSpace_step_velocitySolveTrace v cs ks
    ∧ (∀ c, (nvSpace_step_velocitySolveTrace v cs ks).count (nvSolveEvent.constraint c)
        = v * cs.count c)
    ∧ (∀ k, (nvSpace_step_velocitySolveTrace v cs ks).count (nvSolveEvent.contact k)
        = v * ks.count k) := by
  have hA : ∀ e ∈ (List.range v).flatMap
      (fun _ => cs.map nvSolveEvent.constraint), e.isConstraintEv = true := by
    intro e he
    simp only [List.mem_flatMap, List.mem_map] at he
    obtain ⟨-, -, i, -, rfl⟩ := he
    rfl
  have hB : ∀ e ∈ (List.range v).flatMap
      (fun _ => ks.map nvSolveEvent.contact), e.isConstraintEv = false := by
    intro e he
    simp only [List.mem_flatMap, List.mem_map] at he
    obtain ⟨-, -, i, -, rfl⟩ := he
    rfl
  refine ⟨?_, ?_, ?_⟩
  · unfold nvSpace_step_velocitySolveTrace
    rw [List.filter_append, List.filter_append]
    rw [List.filter_eq_self.mpr hA]
    rw [List.filter_eq_nil_iff.mpr (fun e he => by simp [hB e he])]
    rw [List.filter_eq_nil_iff.mpr (fun e he => by simp [hA e he])]
    rw [List.filter_eq_self.mpr (fun e he => by simp [hB e he])]
    simp
  · intro c
    unfold nvSpace_step_velocitySolveTrace
    rw [List.count_append, count_flatMap_const, count_flatMap_const]
    rw [List.count_map_of_injective cs nvSolveEvent.constraint
      nvSolveEvent_constraint_injective c]
    have : (nvSolveEvent.constraint c) ∉ ks.map nvSolveEvent.contact := by
      simp only [List.mem_map]
      rintro ⟨i, -, h⟩
      exact nvSolveEvent.noConfusion h
    rw [List.count_eq_zero.mpr this]
    simp
  · intro k
    unfold nvSpace_step_velocitySolveTrace
    rw [List.count_append, count_flatMap_const, count_flatMap_const]
    rw [List.count_map_of_injective ks nvSolveEvent.contact
      nvSolveEvent_contact_injective k]
    have : (nvSolveEvent.contact k) ∉ cs.map nvSolveEvent.constraint := by
      simp only [List.mem_map]
      rintro ⟨i, -, h⟩
      exact nvSolveEvent.noConfusion h
    rw [List.count_eq_zero.mpr this]
    simp

/-- C1 counterexample: with `velocity_iterations = 2`, one non-contact
constraint and one contact, the schedule the source actually runs (constraint,
constraint, contact, contact) differs from the per-iteration interleaving the
claim states (constraint, contact, constraint, contact). -/
theorem C1_counterexample :
    nvSpace_step_velocitySolveTrace 2 [0] [0] ≠ spec_velocitySolveTrace 2 [0] [0] := by
  decide

/-- A concrete math-function record used to evaluate witnesses: `sqrt` is the
identity function (so `sqrt 1 = 1`), `cos` is constantly 1 and `sin`
constantly 0 (their exact values at angle 0), `pow` constantly 1. -/
def nvMathSample : NvMathFns :=
  { sqrt := fun q => q, cos := fun _ => 1, sin := fun _ => 0, pow := fun _ _ => 1 }

/-- A concrete persistent contact pair used by sample collision routines in
witnesses. -/
def nvPcpSample : nvPersistentContactPair :=
  { shape_a := 0, shape_b := 0, body_a := 0, body_b := 0,
    normal := nvVector2_zero, friction := 0, restitution := 0, contacts := [] }

/-- Concrete collision routines used to evaluate witnesses. -/
def nvCollisionSample : nvCollisionFns :=
  { collide_polygon_x_polygon := fun _ _ _ _ => nvPcpSample,
    collide_circle_x_circle := fun _ _ _ _ => nvPcpSample }

/-- Concrete step externals used to evaluate witnesses. -/
def nvStepExternalsSample : nvStepExternals :=
  { body_get_aabb := fun _ => ⟨0, 0, 0, 0⟩,
    collision := nvCollisionSample,
    constraint_presolve := fun _ c _ _ => c,
    constraint_warmstart := fun _ bs => bs,
    constraint_solve := fun c _ bs => (c, bs),
    contact_presolve := fun _ pcp _ => pcp,
    contact_warmstart := fun _ bs => bs,
    contact_solve_velocity := fun pcp bs => (pcp, bs) }

/-- The default settings assigned by `nvSpace_new` (space.c). -/
def nvSpaceSettings_default : nvSpaceSettings :=
  { baumgarte := 1/5, penetration_slop := 1/20,
    contact_position_correction := nvContactPositionCorrection.BAUMGARTE,
    velocity_iterations := 8, position_iterations := 4, substeps := 1,
    linear_damping := 1/2000, angular_damping := 1/2000, warmstarting := true,
    restitution_mix := nvCoefficientMix.SQRT, friction_mix := nvCoefficientMix.SQRT }

/-- A sample dynamic one-circle body used in witnesses (id 0, at the origin). -/
def nvBodySample : nvRigidBody :=
  { id := 0, type := nvRigidBodyType.DYNAMIC, position := ⟨0, 0⟩, angle := 0,
    origin := ⟨0, 0⟩, com := ⟨0, 0⟩, linear_velocity := ⟨0, 0⟩,
    angular_velocity := 0, force := ⟨0, 0⟩, torque := 0, invmass := 1,
    invinertia := 1, gravity_scale := 1, linear_damping_scale := 1,
    angular_damping_scale := 1, collision_enabled := true, collision_group := 0,
    collision_category := 1, collision_mask := 1,
    shapes := [(nvCircleShape_new ⟨0, 0⟩ 1 0).1], inSpace := some 0,
    cache_aabb := false, cache_transform := false }

/-- C9: calling `step` with `dt = 0`, or with `settings.substeps = 0`, returns
at the guard of `nvSpace_step` and leaves the whole space — bodies with their
positions, angles, velocities and forces, constraints, the contact map, the
broad-phase pairs and `id_counter` — exactly as it was. -/
theorem C9_step_degenerate_noop (m : NvMathFns) (ext : nvStepExternals)
    (space : nvSpace) (dt : nv_float) :
    nvSpace_step m ext space 0 = space
    ∧ (space.settings.substeps = 0 → nvSpace_step m ext space dt = space) := by
  constructor
  · simp [nvSpace_step]
  · intro h
    simp [nvSpace_step, h]

/-- A space with `substeps = 0`, used by the C9 witness. -/
def nvSpaceC9 : nvSpace :=
  { label := 0, bodies := [nvBodySample], constraints := [], contacts := [],
    broadphase_pairs := [], gravity := ⟨0, 981/100⟩,
    settings := { nvSpaceSettings_default with substeps := 0 },
    kill_bounds := ⟨-10000, -10000, 10000, 10000⟩, use_kill_bounds := true,
    id_counter := 1 }

/-- C9 witness: on a concrete one-body space with `substeps = 0`, stepping by
`dt = 3` changes nothing. -/
theorem C9_witness :
    nvSpaceC9.settings.substeps = 0
    ∧ nvSpace_step nvMathSample nvStepExternalsSample nvSpaceC9 3 = nvSpaceC9 :=
  ⟨rfl,
   (C9_step_degenerate_noop nvMathSample nvStepExternalsSample nvSpaceC9 3).2 rfl⟩

/-- C8: the polygon shape constructor returns a shape exactly when the vertex
count `n` satisfies `3 ≤ n ≤ 16` (`NV_POLYGON_MAX_VERTICES`); in particular it
succeeds for exactly 3 and exactly 16 vertices, and returns null (with the
`InvalidShape` error message set) when `n < 3` or `n > 16`. Allocation is
assumed to succeed. -/
theorem C8_polygon_vertex_count (m : NvMathFns) (vertices : List nvVector2)
    (offset : nvVector2) (id_counter : Nat) :
    (nvPolygonShape_new m vertices offset id_counter).1.isSome = true
      ↔ (3 ≤ vertices.length ∧ vertices.length ≤ 16) := by
  unfold nvPolygonShape_new NV_POLYGON_MAX_VERTICES
  split
  · next h =>
    simp only [Option.isSome_none, Bool.false_eq_true, false_iff]
    omega
  · next h =>
    split
    · next h2 =>
      simp only [Option.isSome_none, Bool.false_eq_true, false_iff]
      omega
    · next h2 =>
      simp only [Option.isSome_some, true_iff]
      omega

/-- C10: when the polygon constructor rejects its input (`n < 3` or `n > 16`)
and returns null, the process-global shape id counter has nonetheless already
been advanced (`shape->id = id_counter++` precedes the checks in shape.c), so
the failed construction consumes an id: the next shape constructed from the
returned counter — here a circle — receives id `id_counter + 1`, not
`id_counter`. The counter is the single one threaded through all shape
constructors; it is unrelated to any space's `id_counter`. -/
theorem C10_failed_polygon_consumes_id (m : NvMathFns) (vertices : List nvVector2)
    (offset : nvVector2) (id_counter : Nat) (center : nvVector2) (radius : nv_float)
    (h : vertices.length < 3 ∨ 16 < vertices.length) :
    (nvPolygonShape_new m vertices offset id_counter).1 = none
    ∧ (nvPolygonShape_new m vertices offset id_counter).2 = id_counter + 1
    ∧ (nvCircleShape_new center radius
        (nvPolygonShape_new m vertices offset id_counter).2).1.id = id_counter + 1 := by
  unfold nvPolygonShape_new nvCircleShape_new NV_POLYGON_MAX_VERTICES
  split
  · exact ⟨rfl, rfl, rfl⟩
  · next h1 =>
    split
    · exact ⟨rfl, rfl, rfl⟩
    · next h2 => omega

/-- C10 witness: a two-vertex polygon at counter 5 fails, yet the next circle
gets id 6. -/
theorem C10_witness :
    ([nvVector2_zero, nvVector2_zero].length < 3
      ∨ 16 < [nvVector2_zero, nvVector2_zero].length)
    ∧ ((nvPolygonShape_new nvMathSample [nvVector2_zero, nvVector2_zero]
          nvVector2_zero 5).1 = none
      ∧ (nvPolygonShape_new nvMathSample [nvVector2_zero, nvVector2_zero]
          nvVector2_zero 5).2 = 5 + 1
      ∧ (nvCircleShape_new nvVector2_zero 1
          (nvPolygonShape_new nvMathSample [nvVector2_zero, nvVector2_zero]
            nvVector2_zero 5).2).1.id = 5 + 1) :=
  ⟨Or.inl (by decide),
   C10_failed_polygon_consumes_id nvMathSample [nvVector2_zero, nvVector2_zero]
     nvVector2_zero 5 nvVector2_zero 1 (Or.inl (by decide))⟩

/-- `nvSpace_add_body` never decreases the space's id counter. -/
theorem nvSpace_add_body_counter_mono (space : nvSpace) (body : nvRigidBody) :
    space.id_counter ≤ (nvSpace_add_body space body).2.id_counter := by
  unfold nvSpace_add_body
  split
  · exact Nat.le_refl _
  · exact Nat.le_succ _

/-- On success, `nvSpace_add_body` advances the id counter by one. -/
theorem nvSpace_add_body_counter_succ (space : nvSpace) (body : nvRigidBody)
    (h : body.inSpace ≠ some space.label) :
    (nvSpace_add_body space body).2.id_counter = space.id_counter + 1 := by
  unfold nvSpace_add_body
  split
  · next hc => exact absurd hc h
  · rfl

/-- Every id a space assigns over a sequence of adds is at least the counter
value at the start of the sequence. -/
theorem nvSpace_addAssignedIds_ge (bs : List nvRigidBody) :
    ∀ (space : nvSpace), ∀ i ∈ nvSpace_addAssignedIds space bs,
      space.id_counter ≤ i := by
  induction bs with
  | nil =>
    intro space i hi
    simp [nvSpace_addAssignedIds] at hi
  | cons b bs ih =>
    intro space i hi
    unfold nvSpace_addAssignedIds at hi
    by_cases hc : (nvSpace_add_body space b).1 = 0
    · simp only [hc, if_pos] at hi
      rcases List.mem_cons.mp hi with h | h
      · omega
      · exact Nat.le_trans (nvSpace_add_body_counter_mono space b)
          (ih (nvSpace_add_body space b).2 i h)
    · simp only [hc, if_neg, if_false] at hi
      exact Nat.le_trans (nvSpace_add_body_counter_mono space b)
        (ih (nvSpace_add_body space b).2 i hi)

/-- The ids a space assigns over any sequence of adds are strictly
increasing. -/
theorem nvSpace_addAssignedIds_chain (bs : List nvRigidBody) (space : nvSpace) :
    List.Chain' (fun i j => i < j) (nvSpace_addAssignedIds space bs) := by
  induction bs generalizing space with
  | nil => simp [nvSpace_addAssignedIds]
  | cons b bs ih =>
    unfold nvSpace_addAssignedIds
    by_cases hc : (nvSpace_add_body space b).1 = 0
    · simp only [hc, if_pos]
      rw [List.chain'_cons']
      refine ⟨?_, ih _⟩
      intro j hj
      have hmem : j ∈ nvSpace_addAssignedIds (nvSpace_add_body space b).2 bs :=
        List.mem_of_mem_head? hj
      have h1 := nvSpace_addAssignedIds_ge bs (nvSpace_add_body space b).2 j hmem
      have h2 : (nvSpace_add_body space b).2.id_counter = space.id_counter + 1 := by
        by_cases hin : b.inSpace = some space.label
        · exfalso
          unfold nvSpace_add_body at hc
          rw [if_pos hin] at hc
          cases hc
        · exact nvSpace_add_body_counter_succ space b hin
      omega
    · simp only [hc, if_neg, if_false]
      exact ih _

/-- C7: `add_rigidbody` fails with the `AlreadyAdded` error (status 2) when
the body's space pointer already equals this space, leaving the space — its
body list and `id_counter` included — unchanged; otherwise (allocation
succeeding) it returns status 0, appends the body, sets the body's space
pointer to this space and assigns it the id `id_counter`, which is then
incremented; consequently the ids a space assigns over its lifetime are
strictly increasing. -/
theorem C7_add_rigidbody (space : nvSpace) (body : nvRigidBody)
    (bs : List nvRigidBody) :
    (body.inSpace = some space.label → nvSpace_add_body space body = (2, space))
    ∧ (body.inSpace ≠ some space.label →
        (nvSpace_add_body space body).1 = 0
        ∧ (nvSpace_add_body space body).2.bodies.map (fun b => b.id)
            = space.bodies.map (fun b => b.id) ++ [space.id_counter]
        ∧ (nvSpace_add_body space body).2.bodies.map (fun b => b.inSpace)
            = space.bodies.map (fun b => b.inSpace) ++ [some space.label]
        ∧ (nvSpace_add_body space body).2.id_counter = space.id_counter + 1)
    ∧ List.Chain' (fun i j => i < j) (nvSpace_addAssignedIds space bs) := by
  refine ⟨?_, ?_, nvSpace_addAssignedIds_chain bs space⟩
  · intro h
    unfold nvSpace_add_body
    simp [h]
  · intro h
    unfold nvSpace_add_body
    simp [h]

/-- An empty space with label 3 and id counter 5, used by the C7 witness. -/
def nvSpaceC7 : nvSpace :=
  { label := 3, bodies := [], constraints := [], contacts := [],
    broadphase_pairs := [], gravity := ⟨0, 981/100⟩,
    settings := nvSpaceSettings_default,
    kill_bounds := ⟨-10000, -10000, 10000, 10000⟩, use_kill_bounds := true,
    id_counter := 5 }

/-- A body whose space pointer already points at `nvSpaceC7`. -/
def nvBodyInC7 : nvRigidBody := { nvBodySample with inSpace := some 3 }

/-- A body not yet owned by any space. -/
def nvBodyOutC7 : nvRigidBody := { nvBodySample with inSpace := none }

/-- C7 witness: on the concrete space, the already-added body is rejected with
status 2 and nothing changes; the fresh body is appended with id 5 and the
counter moves to 6; the ids assigned over a concrete add sequence (success,
failure, success) are strictly increasing. -/
theorem C7_witness :
    (nvSpace_add_body nvSpaceC7 nvBodyInC7 = (2, nvSpaceC7))
    ∧ ((nvSpace_add_body nvSpaceC7 nvBodyOutC7).1 = 0
        ∧ (nvSpace_add_body nvSpaceC7 nvBodyOutC7).2.bodies.map (fun b => b.id)
            = nvSpaceC7.bodies.map (fun b => b.id) ++ [nvSpaceC7.id_counter]
        ∧ (nvSpace_add_body nvSpaceC7 nvBodyOutC7).2.id_counter = 6)
    ∧ List.Chain' (fun i j => i < j)
        (nvSpace_addAssignedIds nvSpaceC7 [nvBodyOutC7, nvBodyInC7, nvBodyOutC7]) :=
  ⟨(C7_add_rigidbody nvSpaceC7 nvBodyInC7 []).1 rfl,
   ⟨((C7_add_rigidbody nvSpaceC7 nvBodyOutC7 []).2.1 (by decide)).1,
    ((C7_add_rigidbody nvSpaceC7 nvBodyOutC7 []).2.1 (by decide)).2.1,
    ((C7_add_rigidbody nvSpaceC7 nvBodyOutC7 []).2.1 (by decide)).2.2.2⟩,
   (C7_add_rigidbody nvSpaceC7 nvBodyOutC7
     [nvBodyOutC7, nvBodyInC7, nvBodyOutC7]).2.2⟩

/-- Replacing the entries that carry a key which is present in the map makes
the lookup of that key return the replacement. -/
theorem nvContactMap_get_map_replace (pcp : nvPersistentContactPair) :
    ∀ (cmap : nvContactMap),
      (nvContactMap_get cmap pcp.shape_a pcp.shape_b).isSome = true →
      nvContactMap_get (cmap.map (fun q =>
          if q.shape_a == pcp.shape_a && q.shape_b == pcp.shape_b then pcp else q))
        pcp.shape_a pcp.shape_b = some pcp
  | [] => by
      intro h
      simp [nvContactMap_get] at h
  | q :: rest => by
      intro h
      by_cases hq : (q.shape_a == pcp.shape_a && q.shape_b == pcp.shape_b) = true
      · simp only [nvContactMap_get, List.map_cons, hq, if_true]
        rw [List.find?_cons_of_pos]
        simp
      · simp only [nvContactMap_get, List.map_cons, hq, if_false]
        rw [List.find?_cons_of_neg _ (by simp_all)]
        have hrest : (nvContactMap_get rest pcp.shape_a pcp.shape_b).isSome = true := by
          unfold nvContactMap_get at h
          rw [List.find?_cons_of_neg _ (by simp_all)] at h
          exact h
        exact nvContactMap_get_map_replace pcp rest hrest

/-- Appending an entry to a map in which its key is absent makes the lookup of
that key return the appended entry. -/
theorem nvContactMap_get_append_single (cmap : nvContactMap)
    (pcp : nvPersistentContactPair)
    (h : nvContactMap_get cmap pcp.shape_a pcp.shape_b = none) :
    nvContactMap_get (cmap ++ [pcp]) pcp.shape_a pcp.shape_b = some pcp := by
  unfold nvContactMap_get at h ⊢
  rw [List.find?_append, h]
  simp

/-- After `nvContactMap_set`, looking up the inserted pair's key returns it. -/
theorem nvContactMap_get_set_self (cmap : nvContactMap)
    (pcp : nvPersistentContactPair) :
    nvContactMap_get (nvContactMap_set cmap pcp) pcp.shape_a pcp.shape_b
      = some pcp := by
  unfold nvContactMap_set
  split
  · next hpres => exact nvContactMap_get_map_replace pcp cmap hpres
  · next habs =>
    apply nvContactMap_get_append_single
    cases hg : nvContactMap_get cmap pcp.shape_a pcp.shape_b with
    | none => rfl
    | some q => exact absurd (by rw [hg]; rfl) habs

/-- `isSome` form of the set-then-get lemma, keyed by arbitrary equal keys. -/
theorem nvContactMap_get_set_isSome (cmap : nvContactMap)
    (pcp : nvPersistentContactPair) (ka kb : Nat) (h1 : pcp.shape_a = ka)
    (h2 : pcp.shape_b = kb) :
    (nvContactMap_get (nvContactMap_set cmap pcp) ka kb).isSome = true := by
  subst h1
  subst h2
  rw [nvContactMap_get_set_self]
  rfl

/-- C3: for a broad-phase candidate shape pair whose key is not already in the
contacts map, narrow-phase registers the freshly computed manifold only when
at least one of its contacts has `separation < 0`; a fresh manifold with no
penetrating contact is never inserted on first encounter (the map is returned
unchanged). -/
theorem C3_first_encounter_insert (m : NvMathFns) (settings : nvSpaceSettings)
    (fns : nvCollisionFns) (cmap : nvContactMap) (body_a body_b : nvRigidBody)
    (shape_a shape_b : nvShape)
    (hnone : nvContactMap_get cmap shape_a.id shape_b.id = none) :
    ((∀ c ∈ (fns.collide_polygon_x_polygon shape_a ⟨body_a.origin, body_a.angle⟩
          shape_b ⟨body_b.origin, body_b.angle⟩).contacts, 0 ≤ c.separation) →
        nv_narrow_phase_pair m settings fns cmap body_a body_b shape_a shape_b = cmap)
    ∧ ((∃ c ∈ (fns.collide_polygon_x_polygon shape_a ⟨body_a.origin, body_a.angle⟩
          shape_b ⟨body_b.origin, body_b.angle⟩).contacts, c.separation < 0) →
        (nvContactMap_get
          (nv_narrow_phase_pair m settings fns cmap body_a body_b shape_a shape_b)
          shape_a.id shape_b.id).isSome = true) := by
  constructor
  · intro hsep
    simp only [nv_narrow_phase_pair, hnone]
    rw [if_neg]
    simp only [nvPersistentContactPair_penetrating, List.any_eq_true,
      decide_eq_true_eq, not_exists, not_and, not_lt]
    exact hsep
  · intro hpen
    simp only [nv_narrow_phase_pair, hnone]
    rw [if_pos]
    · exact nvContactMap_get_set_isSome _ _ _ _ rfl rfl
    · simp only [nvPersistentContactPair_penetrating, List.any_eq_true,
        decide_eq_true_eq]
      exact hpen

/-- A circle shape with id 0, used in witnesses. -/
def nvShapeA : nvShape := (nvCircleShape_new ⟨0, 0⟩ 1 0).1

/-- A circle shape with id 1, used in witnesses. -/
def nvShapeB : nvShape := (nvCircleShape_new ⟨0, 0⟩ 1 1).1

/-- Witness body carrying `nvShapeA`, at the origin. -/
def nvBodyA : nvRigidBody := { nvBodySample with shapes := [nvShapeA] }

/-- Witness body carrying `nvShapeB`, at `(1, 0)`. -/
def nvBodyB : nvRigidBody :=
  { nvBodySample with id := 1, position := ⟨1, 0⟩, origin := ⟨1, 0⟩,
                      shapes := [nvShapeB] }

/-- A penetrating contact (separation −1) with feature id 7 and off-spec
anchor `(5, 5)`, used by sample collision routines. -/
def nvContactPen : nvContact :=
  { nvContact_default with anchor_a := ⟨5, 5⟩, anchor_b := ⟨5, 5⟩,
                           separation := -1, id := 7 }

/-- A manifold with the single penetrating contact `nvContactPen` and normal
`(0, −1)`. -/
def nvPcpPen : nvPersistentContactPair :=
  { nvPcpSample with normal := ⟨0, -1⟩, contacts := [nvContactPen] }

/-- Collision routines whose polygon-polygon routine returns `nvPcpPen`. -/
def nvFnsPen : nvCollisionFns :=
  { collide_polygon_x_polygon := fun _ _ _ _ => nvPcpPen,
    collide_circle_x_circle := fun _ _ _ _ => nvPcpSample }

/-- A separated contact (separation 2). -/
def nvContactSep : nvContact := { nvContact_default with separation := 2, id := 7 }

/-- A manifold whose single contact is separated. -/
def nvPcpSep : nvPersistentContactPair := { nvPcpSample with contacts := [nvContactSep] }

/-- Collision routines whose polygon-polygon routine returns `nvPcpSep`. -/
def nvFnsSep : nvCollisionFns :=
  { collide_polygon_x_polygon := fun _ _ _ _ => nvPcpSep,
    collide_circle_x_circle := fun _ _ _ _ => nvPcpSample }

/-- C3 witness: on an empty contacts map, a concrete non-penetrating manifold
is not inserted and a concrete penetrating one is. -/
theorem C3_witness :
    nvContactMap_get ([] : nvContactMap) nvShapeA.id nvShapeB.id = none
    ∧ nv_narrow_phase_pair nvMathSample nvSpaceSettings_default nvFnsSep []
        nvBodyA nvBodyB nvShapeA nvShapeB = []
    ∧ (nvContactMap_get (nv_narrow_phase_pair nvMathSample nvSpaceSettings_default
          nvFnsPen [] nvBodyA nvBodyB nvShapeA nvShapeB)
        nvShapeA.id nvShapeB.id).isSome = true :=
  ⟨rfl,
   (C3_first_encounter_insert nvMathSample nvSpaceSettings_default nvFnsSep []
      nvBodyA nvBodyB nvShapeA nvShapeB rfl).1 (by decide),
   (C3_first_encounter_insert nvMathSample nvSpaceSettings_default nvFnsPen []
      nvBodyA nvBodyB nvShapeA nvShapeB rfl).2
     ⟨nvContactPen, by decide, by norm_num [nvContactPen]⟩⟩

/-- A contact whose id matches no old contact passes through the feature-id
matching fold unchanged. -/
theorem nv_narrow_phase_matchFold_no_match (ws : Bool) (c : nvContact) :
    ∀ (old : List nvContact), (∀ o ∈ old, o.id ≠ c.id) →
      old.foldl (nv_narrow_phase_matchStep ws) c = c
  | [] => by
      intro _
      rfl
  | q :: rest => by
      intro h
      rw [List.foldl_cons]
      have hstep : nv_narrow_phase_matchStep ws c q = c := by
        unfold nv_narrow_phase_matchStep
        rw [if_neg]
        simp only [beq_iff_eq]
        exact h q (List.mem_cons_self q rest)
      rw [hstep]
      exact nv_narrow_phase_matchFold_no_match ws c rest
        (fun o ho => h o (List.mem_cons_of_mem q ho))

/-- When the old contacts carry pairwise distinct ids and one of them matches
the new contact's id, the matching fold marks the new contact persisted and
sets its solver info to the old contact's exactly when warm-starting is on. -/
theorem nv_narrow_phase_matchFold_match (ws : Bool) (c o : nvContact) :
    ∀ (old : List nvContact), old.Pairwise (fun o1 o2 => o1.id ≠ o2.id) →
      o ∈ old → o.id = c.id →
      old.foldl (nv_narrow_phase_matchStep ws) c
        = { c with is_persisted := true,
                   solver_info := if ws then o.solver_info else c.solver_info }
  | [] => by
      intro _ hmem _
      cases hmem
  | q :: rest => by
      intro hpw hmem hid
      rcases List.mem_cons.mp hmem with rfl | hmem2
      · rw [List.foldl_cons]
        have hstep : nv_narrow_phase_matchStep ws c o
            = { c with is_persisted := true,
                       solver_info := if ws then o.solver_info else c.solver_info } := by
          unfold nv_narrow_phase_matchStep
          rw [if_pos]
          simp only [beq_iff_eq]
          exact hid
        rw [hstep]
        apply nv_narrow_phase_matchFold_no_match
        intro o2 ho2
        have hne := (List.pairwise_cons.mp hpw).1 o2 ho2
        show o2.id ≠ c.id
        exact fun he => hne (hid.trans he.symm)
      · rw [List.foldl_cons]
        have hqne : q.id ≠ c.id := by
          have := (List.pairwise_cons.mp hpw).1 o hmem2
          rw [← hid]
          exact this
        have hstep : nv_narrow_phase_matchStep ws c q = c := by
          unfold nv_narrow_phase_matchStep
          rw [if_neg]
          simp only [beq_iff_eq]
          exact hqne
        rw [hstep]
        exact nv_narrow_phase_matchFold_match ws c o rest
          (List.pairwise_cons.mp hpw).2 hmem2 hid

/-- `getD` commutes with `map` at in-range indices, for any defaults. -/
theorem list_getD_map_in_range {α β : Type} (l : List α) (f : α → β) (i : Nat)
    (d : α) (e : β) (h : i < l.length) : (l.map f).getD i e = f (l.getD i d) := by
  rw [List.getD_eq_getElem _ e (by simpa using h), List.getD_eq_getElem _ d h]
  exact List.getElem_map f

/-- What the contact-matching pass of `nv_narrow_phase` produces at one index
of the fresh manifold: when some old contact (of a pairwise-distinct-id old
list) carries the same feature id, the produced contact is persisted and its
solver info is the old one exactly when warm-starting is on. -/
theorem nv_narrow_phase_newContacts_spec (ws : Bool) (com_a com_b : nvVector2)
    (old : List nvContact) (hdistinct : old.Pairwise (fun o1 o2 => o1.id ≠ o2.id))
    (cs : List nvContact) (i : Nat) (hi : i < cs.length) (o : nvContact)
    (ho : o ∈ old) (hid : o.id = (cs.getD i nvContact_default).id) :
    ((cs.map (fun c0 => old.foldl (nv_narrow_phase_matchStep ws)
        { c0 with anchor_a := nvVector2_sub c0.anchor_a com_a,
                  anchor_b := nvVector2_sub c0.anchor_b com_b })).getD i
      nvContact_default).is_persisted = true
    ∧ ((cs.map (fun c0 => old.foldl (nv_narrow_phase_matchStep ws)
        { c0 with anchor_a := nvVector2_sub c0.anchor_a com_a,
                  anchor_b := nvVector2_sub c0.anchor_b com_b })).getD i
      nvContact_default).solver_info
        = (if ws then o.solver_info else (cs.getD i nvContact_default).solver_info) := by
  rw [list_getD_map_in_range cs _ i nvContact_default nvContact_default hi]
  rw [nv_narrow_phase_matchFold_match ws
    { cs.getD i nvContact_default with
        anchor_a := nvVector2_sub (cs.getD i nvContact_default).anchor_a com_a,
        anchor_b := nvVector2_sub (cs.getD i nvContact_default).anchor_b com_b }
    o old hdistinct ho hid]
  exact ⟨rfl, rfl⟩

/-- C4: when narrow-phase recomputes a manifold for a shape pair whose
persistent contact pair is already stored (and the stored contacts carry
pairwise distinct feature ids, as manifold contacts do), the stored pair is
replaced by the newly computed one, and every new contact whose feature id
equals the id of a stored contact is marked `is_persisted = true` with its
solver info copied from that stored contact exactly when
`settings.warmstarting` is enabled (otherwise it keeps the freshly computed
solver info). -/
theorem C4_persisted_matching (m : NvMathFns) (settings : nvSpaceSettings)
    (fns : nvCollisionFns) (cmap : nvContactMap) (body_a body_b : nvRigidBody)
    (shape_a shape_b : nvShape) (old_pcp : nvPersistentContactPair)
    (hfound : nvContactMap_get cmap shape_a.id shape_b.id = some old_pcp)
    (hdistinct : old_pcp.contacts.Pairwise (fun o1 o2 => o1.id ≠ o2.id)) :
    ∃ stored,
      nvContactMap_get (nv_narrow_phase_pair m settings fns cmap body_a body_b
          shape_a shape_b) shape_a.id shape_b.id = some stored
      ∧ stored.normal = (fns.collide_polygon_x_polygon shape_a
          ⟨body_a.origin, body_a.angle⟩ shape_b ⟨body_b.origin, body_b.angle⟩).normal
      ∧ stored.contacts.length = (fns.collide_polygon_x_polygon shape_a
          ⟨body_a.origin, body_a.angle⟩ shape_b
          ⟨body_b.origin, body_b.angle⟩).contacts.length
      ∧ ∀ i, i < (fns.collide_polygon_x_polygon shape_a ⟨body_a.origin, body_a.angle⟩
            shape_b ⟨body_b.origin, body_b.angle⟩).contacts.length →
          ∀ o ∈ old_pcp.contacts,
            o.id = ((fns.collide_polygon_x_polygon shape_a ⟨body_a.origin, body_a.angle⟩
              shape_b ⟨body_b.origin, body_b.angle⟩).contacts.getD i
                nvContact_default).id →
              (stored.contacts.getD i nvContact_default).is_persisted = true
              ∧ (stored.contacts.getD i nvContact_default).solver_info
                  = (if settings.warmstarting then o.solver_info
                     else ((fns.collide_polygon_x_polygon shape_a
                       ⟨body_a.origin, body_a.angle⟩ shape_b
                       ⟨body_b.origin, body_b.angle⟩).contacts.getD i
                         nvContact_default).solver_info) := by
  simp only [nv_narrow_phase_pair, hfound]
  refine ⟨_, nvContactMap_get_set_self _ _, rfl, by simp, ?_⟩
  intro i hi o ho hid
  exact nv_narrow_phase_newContacts_spec settings.warmstarting
    (nvVector2_rotate m body_a.com body_a.angle)
    (nvVector2_rotate m body_b.com body_b.angle)
    old_pcp.contacts hdistinct _ i hi o ho hid

/-- A stored old contact with feature id 7 and a distinctive accumulated
normal impulse. -/
def nvOldContactC4 : nvContact :=
  { nvContact_default with
      id := 7,
      solver_info := { nvContactSolverInfo_zero with normal_impulse := 42 } }

/-- A stored persistent contact pair for the shape pair (0, 1) holding
`nvOldContactC4`. -/
def nvOldPcpC4 : nvPersistentContactPair :=
  { nvPcpSample with shape_a := 0, shape_b := 1, contacts := [nvOldContactC4] }

/-- C4 witness: with warm-starting enabled (default settings), recomputing the
manifold for a stored pair whose contact has feature id 7 against a fresh
manifold whose contact also has id 7 yields a stored pair whose contact is
persisted and carries the old accumulated solver info. -/
theorem C4_witness :
    nvContactMap_get [nvOldPcpC4] nvShapeA.id nvShapeB.id = some nvOldPcpC4
    ∧ List.Pairwise (fun o1 o2 => o1.id ≠ o2.id) nvOldPcpC4.contacts
    ∧ (∃ stored,
        nvContactMap_get (nv_narrow_phase_pair nvMathSample nvSpaceSettings_default
            nvFnsPen [nvOldPcpC4] nvBodyA nvBodyB nvShapeA nvShapeB)
          nvShapeA.id nvShapeB.id = some stored
        ∧ (stored.contacts.getD 0 nvContact_default).is_persisted = true
        ∧ (stored.contacts.getD 0 nvContact_default).solver_info
            = nvOldContactC4.solver_info) := by
  refine ⟨rfl, by simp [nvOldPcpC4], ?_⟩
  obtain ⟨stored, hget, hnormal, hlen, hspec⟩ :=
    C4_persisted_matching nvMathSample nvSpaceSettings_default nvFnsPen [nvOldPcpC4]
      nvBodyA nvBodyB nvShapeA nvShapeB nvOldPcpC4 rfl (by simp [nvOldPcpC4])
  have h := hspec 0 (by decide) nvOldContactC4 (by decide) (by decide)
  refine ⟨stored, hget, h.1, ?_⟩
  rw [h.2]
  rfl

/-- C5 (amended): the newer narrow-phase computes the manifold of every
candidate shape pair — circle-circle pairs included — with the polygon-polygon
collision routine and never consults the circle-circle routine: its result is
unchanged under any replacement of the circle-circle routine. The circle-circle
contact routine itself (in the older incarnation's contact.c) does behave as
described for coincident centers: the direction defaults to the upward vector
`(0, 1)` and the single contact point is `a.position + (0, 1) · a.radius`. -/
theorem C5_circle_dispatch :
    (∀ (m : NvMathFns) (settings : nvSpaceSettings) (fns fns2 : nvCollisionFns)
        (cmap : nvContactMap) (body_a body_b : nvRigidBody) (shape_a shape_b : nvShape),
        shape_a.type = nvShapeType.CIRCLE → shape_b.type = nvShapeType.CIRCLE →
        fns.collide_polygon_x_polygon = fns2.collide_polygon_x_polygon →
        nv_narrow_phase_pair m settings fns cmap body_a body_b shape_a shape_b
          = nv_narrow_phase_pair m settings fns2 cmap body_a body_b shape_a shape_b)
    ∧ (∀ (m : NvMathFns), m.sqrt 1 = 1 → ∀ (res : nvOldResolution),
        res.b.position = res.a.position →
        nv_contact_circle_x_circle m res
          = { res with contact_count := 1,
                       contacts := [⟨res.a.position.x,
                         res.a.position.y + res.a.radius⟩] }) := by
  constructor
  · intro m settings fns fns2 cmap body_a body_b shape_a shape_b _ _ hpp
    simp only [nv_narrow_phase_pair, hpp]
  · intro m hs res h
    simp only [nv_contact_circle_x_circle, nvVector2_sub, h, sub_self,
      nvVector2_len2, nvVector2_normalize, nvVector2_muls, nvVector2_add]
    norm_num [hs]

/-- C5 counterexample: a candidate pair of two circle shapes (A centered at
the origin, B at `(1, 0)`, both radius 1), with concrete collision routines
whose polygon-polygon routine reports a penetrating manifold with normal
`(0, −1)`. The pair narrow-phase stores carries that normal, not the unit
vector `(1, 0)` from A's center toward B's center that the claimed
circle-circle dispatch would produce. -/
theorem C5_counterexample :
    ¬ (Option.map (fun s => s.normal) (nvContactMap_get
          (nv_narrow_phase_pair nvMathSample nvSpaceSettings_default nvFnsPen []
            nvBodyA nvBodyB nvShapeA nvShapeB) nvShapeA.id nvShapeB.id)
        = some ⟨1, 0⟩) := by
  decide

/-- Collision routines equal to `nvFnsPen` except for the circle-circle
routine. -/
def nvFnsPen2 : nvCollisionFns :=
  { nvFnsPen with collide_circle_x_circle := fun _ _ _ _ => nvPcpSep }

/-- An old-incarnation resolution whose two circles have coincident centers
`(2, 3)`, with radius 5 on body a. -/
def nvOldResC5 : nvOldResolution :=
  { a := ⟨⟨2, 3⟩, 5⟩, b := ⟨⟨2, 3⟩, 1⟩, contact_count := 0, contacts := [] }

/-- C5 witness: on concrete circle shapes the narrow-phase result is
insensitive to the circle-circle routine, and the old circle-circle contact
routine at coincident centers `(2, 3)` with radius 5 yields the contact
`(2, 8)`. -/
theorem C5_witness :
    (nvShapeA.type = nvShapeType.CIRCLE ∧ nvShapeB.type = nvShapeType.CIRCLE
      ∧ nv_narrow_phase_pair nvMathSample nvSpaceSettings_default nvFnsPen []
          nvBodyA nvBodyB nvShapeA nvShapeB
        = nv_narrow_phase_pair nvMathSample nvSpaceSettings_default nvFnsPen2 []
          nvBodyA nvBodyB nvShapeA nvShapeB)
    ∧ (nvMathSample.sqrt 1 = 1 ∧ nvOldResC5.b.position = nvOldResC5.a.position
      ∧ nv_contact_circle_x_circle nvMathSample nvOldResC5
          = { nvOldResC5 with contact_count := 1, contacts := [⟨2, 8⟩] }) := by
  refine ⟨⟨rfl, rfl, ?_⟩, rfl, rfl, ?_⟩
  · exact C5_circle_dispatch.1 nvMathSample nvSpaceSettings_default nvFnsPen nvFnsPen2
      [] nvBodyA nvBodyB nvShapeA nvShapeB rfl rfl rfl
  · rw [C5_circle_dispatch.2 nvMathSample rfl nvOldResC5 rfl]
    norm_num [nvOldResC5]

/-- Every pair the inner broad-phase loop adds has passed the early-out
filter: the invariant that all recorded pairs fail `nvBroadPhase_early_out`
is preserved. -/
theorem nv_broadphase_inner_inv (m : NvMathFns)
    (body_get_aabb : nvRigidBody → nvAABB) (a : nvRigidBody) (abox : nvAABB) :
    ∀ (bs : List nvRigidBody) (acc : nvBroadPhaseResult),
      (∀ p ∈ acc.pairs, nvBroadPhase_early_out p.1 p.2 = false) →
      ∀ p ∈ (bs.foldl (nv_broadphase_brute_force_inner m body_get_aabb a abox)
          acc).pairs, nvBroadPhase_early_out p.1 p.2 = false
  | [] => fun _ h => h
  | b :: bs => fun acc h => by
      rw [List.foldl_cons]
      apply nv_broadphase_inner_inv m body_get_aabb a abox bs
      unfold nv_broadphase_brute_force_inner
      by_cases he : nvBroadPhase_early_out a b = true
      · rw [if_pos he]
        exact h
      · rw [if_neg he]
        rw [Bool.not_eq_true] at he
        by_cases ho : nv_broadphase_one_aabb m a b abox (body_get_aabb b) = true
        · rw [if_pos ho]
          intro p hp
          rcases List.mem_append.mp hp with h1 | h2
          · exact h p h1
          · rw [List.mem_singleton.mp h2]
            exact he
        · rw [if_neg ho]
          exact h

/-- The outer broad-phase loop preserves the same invariant. -/
theorem nv_broadphase_outer_inv (m : NvMathFns)
    (body_get_aabb : nvRigidBody → nvAABB) (bodies : List nvRigidBody) :
    ∀ (as : List nvRigidBody) (acc : nvBroadPhaseResult),
      (∀ p ∈ acc.pairs, nvBroadPhase_early_out p.1 p.2 = false) →
      ∀ p ∈ (as.foldl (fun acc a =>
          bodies.foldl (nv_broadphase_brute_force_inner m body_get_aabb a
            (body_get_aabb a)) acc) acc).pairs,
        nvBroadPhase_early_out p.1 p.2 = false
  | [] => fun _ h => h
  | a :: as => fun acc h => by
      rw [List.foldl_cons]
      apply nv_broadphase_outer_inv m body_get_aabb bodies as
      exact nv_broadphase_inner_inv m body_get_aabb a (body_get_aabb a) bodies acc h

/-- C6: every candidate pair the brute-force broad-phase produces has passed
all the early-out filters: the first body's id is strictly below the second's
(so a pair is produced at most once per unordered body pair), both bodies have
collision detection enabled, they are not both static, they do not share the
same nonzero collision group, each body's collision mask intersects the other
body's category — and in particular a body whose collision mask is 0 never
appears in any candidate pair, hence never collides. -/
theorem C6_broadphase_filters (m : NvMathFns)
    (body_get_aabb : nvRigidBody → nvAABB) (bodies : List nvRigidBody)
    (cmap : nvContactMap) (p : nvRigidBody × nvRigidBody)
    (hp : p ∈ (nv_broadphase_brute_force m body_get_aabb bodies cmap).pairs) :
    p.1.id < p.2.id
    ∧ p.1.collision_enabled = true ∧ p.2.collision_enabled = true
    ∧ ¬(p.1.type = nvRigidBodyType.STATIC ∧ p.2.type = nvRigidBodyType.STATIC)
    ∧ ¬(p.1.collision_group = p.2.collision_group ∧ p.1.collision_group ≠ 0)
    ∧ Nat.land p.1.collision_mask p.2.collision_category ≠ 0
    ∧ Nat.land p.2.collision_mask p.1.collision_category ≠ 0
    ∧ p.1.collision_mask ≠ 0 ∧ p.2.collision_mask ≠ 0 := by
  have hfalse : nvBroadPhase_early_out p.1 p.2 = false := by
    apply nv_broadphase_outer_inv m body_get_aabb bodies bodies
      { pairs := [], contacts := cmap } (by intro q hq; cases hq) p
    exact hp
  unfold nvBroadPhase_early_out at hfalse
  split at hfalse
  · cases hfalse
  · next h1 =>
    split at hfalse
    · cases hfalse
    · next h2 =>
      split at hfalse
      · cases hfalse
      · next h3 =>
        split at hfalse
        · cases hfalse
        · next h4 =>
          split at hfalse
          · cases hfalse
          · next h5 =>
            simp only [Bool.or_eq_true, Bool.not_eq_true, Bool.and_eq_true,
              beq_iff_eq, bne_iff_ne, decide_eq_true_eq, not_or, not_and,
              Bool.not_eq_false] at h1 h2 h3 h4 h5
            have hmask1 : Nat.land p.1.collision_mask p.2.collision_category ≠ 0 :=
              h5.1
            have hmask2 : Nat.land p.2.collision_mask p.1.collision_category ≠ 0 :=
              h5.2
            refine ⟨by omega, by simpa using h2.1, by simpa using h2.2, ?_, ?_,
              hmask1, hmask2, ?_, ?_⟩
            · intro hst
              exact absurd hst (by simpa using h3)
            · intro hgr
              exact absurd hgr (by simpa using h4)
            · intro hz
              exact hmask1 (by rw [hz]; exact Nat.zero_and _)
            · intro hz
              exact hmask2 (by rw [hz]; exact Nat.zero_and _)

/-- A concrete body-level AABB function (unit half-extent box around the
body's origin), used to evaluate witnesses. -/
def nvGetAabbSample : nvRigidBody → nvAABB := fun bdy =>
  ⟨bdy.origin.x - 1, bdy.origin.y - 1, bdy.origin.x + 1, bdy.origin.y + 1⟩

/-- C6 witness: on a concrete two-body space the brute-force broad-phase does
produce the candidate pair (A, B), and that pair passes all the filters. -/
theorem C6_witness :
    ((nvBodyA, nvBodyB) ∈ (nv_broadphase_brute_force nvMathSample nvGetAabbSample
        [nvBodyA, nvBodyB] []).pairs)
    ∧ nvBodyA.id < nvBodyB.id ∧ nvBodyA.collision_mask ≠ 0 := by
  have hpairs : (nv_broadphase_brute_force nvMathSample nvGetAabbSample
      [nvBodyA, nvBodyB] []).pairs = [(nvBodyA, nvBodyB)] := by
    norm_num [nv_broadphase_brute_force, nv_broadphase_brute_force_inner,
      nvBroadPhase_early_out, nv_broadphase_one_aabb, nv_collide_aabb_x_aabb,
      nvShape_get_aabb, nvPolygon_transform, nvGetAabbSample, nvBodyA, nvBodyB,
      nvBodySample, nvShapeA, nvShapeB, nvCircleShape_new]
    rw [if_neg (by decide)]
  have hm : (nvBodyA, nvBodyB) ∈ (nv_broadphase_brute_force nvMathSample
      nvGetAabbSample [nvBodyA, nvBodyB] []).pairs := by
    rw [hpairs]
    exact List.mem_singleton.mpr rfl
  have h := C6_broadphase_filters nvMathSample nvGetAabbSample [nvBodyA, nvBodyB]
    [] (nvBodyA, nvBodyB) hm
  exact ⟨hm, h.1, h.2.2.2.2.2.2.2.1⟩

/-- Folding a function that fixes the accumulator is the identity. -/
theorem list_foldl_fixed {α β : Type} (f : α → β → α) (l : List β) (a : α)
    (h : ∀ b, f a b = a) : l.foldl f a = a := by
  induction l with
  | nil => rfl
  | cons x xs ih =>
    rw [List.foldl_cons, h x]
    exact ih

/-- With no constraints, the iterative constraint-solve loop leaves the bodies
untouched. -/
theorem solveConstraints_fold_nil (ext : nvStepExternals) (inv_dt : nv_float)
    (n : Nat) (bodies : List nvRigidBody) :
    (List.range n).foldl (fun st _ => nvSpace_solveConstraintsOnce ext inv_dt st)
      (([] : List nvConstraintRef), bodies) = ([], bodies) :=
  list_foldl_fixed _ _ _ (fun _ => rfl)

/-- With no contacts, the iterative contact-solve loop leaves the bodies
untouched. -/
theorem solveContacts_fold_nil (ext : nvStepExternals) (n : Nat)
    (bodies : List nvRigidBody) :
    (List.range n).foldl (fun st _ => nvSpace_solveContactsOnce ext st)
      (([] : nvContactMap), bodies) = ([], bodies) :=
  list_foldl_fixed _ _ _ (fun _ => rfl)

/-- A dynamic body far outside the default kill bounds, at `(20000, 0)`. -/
def nvBodyFar : nvRigidBody :=
  { nvBodySample with position := ⟨20000, 0⟩, origin := ⟨20000, 0⟩ }

/-- A space holding only `nvBodyFar`, with the `nvSpace_new` defaults: kill
bounds `(-1e4, -1e4, 1e4, 1e4)` and `use_kill_bounds = true`. -/
def nvSpaceKill : nvSpace :=
  { label := 0, bodies := [nvBodyFar], constraints := [], contacts := [],
    broadphase_pairs := [], gravity := ⟨0, 981/100⟩,
    settings := nvSpaceSettings_default,
    kill_bounds := ⟨-10000, -10000, 10000, 10000⟩, use_kill_bounds := true,
    id_counter := 1 }

/-- A body always early-outs against itself (`a->id >= b->id`). -/
theorem nvBroadPhase_early_out_self (a : nvRigidBody) :
    nvBroadPhase_early_out a a = true := by
  unfold nvBroadPhase_early_out
  rw [if_pos (Nat.le_refl _)]

/-- On a one-body space the brute-force broad-phase yields no candidate pair
and leaves the contacts map untouched. -/
theorem nv_broadphase_brute_force_single (m : NvMathFns)
    (body_get_aabb : nvRigidBody → nvAABB) (b : nvRigidBody) (cmap : nvContactMap) :
    nv_broadphase_brute_force m body_get_aabb [b] cmap
      = { pairs := [], contacts := cmap } := by
  unfold nv_broadphase_brute_force nv_broadphase_brute_force_inner
  simp [nvBroadPhase_early_out_self]

/-- One substep on a space with a single body and no constraints and no
contacts: the body list is the single body taken through cache reset,
acceleration integration, velocity integration and the origin update — and
through nothing else; in particular no body is removed. -/
theorem nvSpace_step_substep_bodies_single (m : NvMathFns) (ext : nvStepExternals)
    (dt inv_dt : nv_float) (space : nvSpace) (body : nvRigidBody)
    (hb : space.bodies = [body]) (hc : space.constraints = [])
    (hk : space.contacts = []) :
    (nvSpace_step_substep m ext dt inv_dt space).bodies
      = [(fun b0 =>
            { nvRigidBody_integrate_velocities b0 dt with
                origin := nvVector2_sub (nvRigidBody_integrate_velocities b0 dt).position
                  (nvVector2_rotate m (nvRigidBody_integrate_velocities b0 dt).com
                    (nvRigidBody_integrate_velocities b0 dt).angle) })
          (nvRigidBody_integrate_accelerations m space.settings.linear_damping
            space.settings.angular_damping
            (if body.type ≠ nvRigidBodyType.STATIC then
              { body with cache_aabb := false, cache_transform := false }
            else body) space.gravity dt)] := by
  unfold nvSpace_step_substep
  rw [hb, hc, hk]
  simp [nv_broadphase_brute_force_single, nv_narrow_phase,
    solveConstraints_fold_nil, solveContacts_fold_nil]

/-- C2 (code bug): the kill-bounds removal is commented out in the
velocity-integration loop of `nvSpace_step`, so even though
`use_kill_bounds = true` and the body at `(20000, 0)` lies far outside the
kill bounds, the body is still among the space's bodies once the step returns
— for every math library and every behaviour of the missing solver code. This
contradicts space.h, which documents `kill_bounds` as the "boundary where
bodies get removed if they go out of". -/
theorem C2_kill_bounds_not_enforced (m : NvMathFns) (ext : nvStepExternals) :
    nvSpaceKill.use_kill_bounds = true
    ∧ (nvSpace_step m ext nvSpaceKill 1).bodies.map (fun b => b.id) = [0]
    ∧ (nvSpace_step m ext nvSpaceKill 1).bodies.map
        (fun b => nv_collide_aabb_x_point nvSpaceKill.kill_bounds b.position)
      = [false] := by
  have hstep : nvSpace_step m ext nvSpaceKill 1
      = nvSpace_step_substep m ext 1 1 nvSpaceKill := by
    unfold nvSpace_step
    rw [if_neg (by norm_num [nvSpaceKill, nvSpaceSettings_default])]
    simp only [nvSpaceKill, nvSpaceSettings_default]
    norm_num [show List.range 1 = [0] from rfl]
  have hbodies := nvSpace_step_substep_bodies_single m ext 1 1
    nvSpaceKill nvBodyFar rfl rfl rfl
  refine ⟨rfl, ?_, ?_⟩ <;>
    (rw [hstep, hbodies]
     simp [nvRigidBody_integrate_accelerations, nvRigidBody_integrate_velocities,
       nvBodyFar, nvBodySample, nvSpaceKill, nvSpaceSettings_default,
       nvVector2_add, nvVector2_muls, nvVector2_zero, nv_collide_aabb_x_point]
     try norm_num)

/-- C8 witness: concrete polygons with exactly 3 and exactly 16 vertices
construct successfully; one with 17 vertices does not. -/
theorem C8_witness :
    (nvPolygonShape_new nvMathSample (List.replicate 3 nvVector2_zero)
        nvVector2_zero 0).1.isSome = true
    ∧ (nvPolygonShape_new nvMathSample (List.replicate 16 nvVector2_zero)
        nvVector2_zero 0).1.isSome = true
    ∧ ¬ (nvPolygonShape_new nvMathSample (List.replicate 17 nvVector2_zero)
        nvVector2_zero 0).1.isSome = true :=
  ⟨(C8_polygon_vertex_count nvMathSample (List.replicate 3 nvVector2_zero)
      nvVector2_zero 0).mpr (by decide),
   (C8_polygon_vertex_count nvMathSample (List.replicate 16 nvVector2_zero)
      nvVector2_zero 0).mpr (by decide),
   fun h => by
     have := (C8_polygon_vertex_count nvMathSample (List.replicate 17 nvVector2_zero)
       nvVector2_zero 0).mp h
     rw [List.length_replicate] at this
     omega⟩
